import Mathlib

set_option maxRecDepth 100000

/-!
Shallow embedding of `apps/server/src/utils/llm.py` and
`apps/server/src/database/repositories/capability_repository.py` from the
Compass-Master repository, with theorems checking the claims of the specification
about configuration resolution, connection construction, content generation,
token accounting and the capability store.
-/

/-- Process environment mapping: `env.get(name)` yields the value of the variable,
or `none` when the variable is unset. -/
abbrev EnvMap : Type := String → Option String

/-- Python truthiness of an optional string: `None` and `""` are falsy. -/
def pyTruthy : Option String → Bool
  | none => false
  | some s => s != ""

/-- Python `a or b` where both operands are optional strings. -/
def pyOr (a b : Option String) : Option String :=
  if pyTruthy a then a else b

/-- Python `a or b` where the right operand is a plain string. -/
def pyOrS (a : Option String) (b : String) : String :=
  match a with
  | some s => if s != "" then s else b
  | none => b

/-- Outcome of one `client.get_secret(name)` call: either the call succeeds and
`.value` is an optional string, or the call raises. -/
inductive SecretFetch where
  | ok (value : Option String)
  | err
deriving DecidableEq

/-- The four secrets an established Key Vault session can be asked for
(`AzureLLMKey`, `AzureOpenAiBase`, `AzureOpenAiVersion`, `AzureOpenAiDeployment`). -/
structure VaultSession where
  azureLLMKey : SecretFetch
  azureOpenAiBase : SecretFetch
  azureOpenAiVersion : SecretFetch
  azureOpenAiDeployment : SecretFetch
deriving DecidableEq

/-- Behaviour of the secret store for one resolution attempt: either session
establishment (`DefaultAzureCredential` + `SecretClient`) succeeds and yields a
session, or it raises. -/
inductive Vault where
  | available (s : VaultSession)
  | unavailable
deriving DecidableEq

/-- The value of `get_secret(name).value` as subsequently read by the code:
`none` when the fetch raised (the code stores `None`). -/
def SecretFetch.fetched : SecretFetch → Option String
  | .ok v => v
  | .err => none

/-- The configuration dict built by `_load_config_from_vault`: keys `api_key`,
`api_base`, `model_version`, `deployment`.  `model_version` always ends up a
string because its environment fallback carries the default `"2024-02-01"`. -/
structure Config where
  api_key : Option String
  api_base : Option String
  model_version : String
  deployment : Option String
deriving DecidableEq

/-- The environment-variable bundle (lines 31-36 and 81-86 of `llm.py`). -/
def envFallbackBundle (env : EnvMap) : Config :=
  { api_key := env "AZURE_OPENAI_API_KEY"
    api_base := env "AZURE_OPENAI_ENDPOINT"
    model_version := (env "AZURE_OPENAI_API_VERSION").getD "2024-02-01"
    deployment := env "AZURE_OPENAI_DEPLOYMENT" }

/-- The bundle built from an established Key Vault session (lines 41-66 of
`llm.py`): each field is fetched independently, a raising fetch stores `None`,
and afterwards every field is back-filled with `cfg.get(k) or env.get(...)`. -/
def vaultBundle (env : EnvMap) (s : VaultSession) : Config :=
  { api_key := pyOr s.azureLLMKey.fetched (env "AZURE_OPENAI_API_KEY")
    api_base := pyOr s.azureOpenAiBase.fetched (env "AZURE_OPENAI_ENDPOINT")
    model_version := pyOrS s.azureOpenAiVersion.fetched
      ((env "AZURE_OPENAI_API_VERSION").getD "2024-02-01")
    deployment := pyOr s.azureOpenAiDeployment.fetched (env "AZURE_OPENAI_DEPLOYMENT") }

/-- The `AzureOpenAI(...)` connection handle: the constructor arguments of
line 102-106 of `llm.py`. -/
structure Conn where
  azure_endpoint : String
  api_key : String
  api_version : String
deriving DecidableEq

/-- Mutable state of one `AzureOpenAIClient` instance: `self.key_vault_url`,
`self._config`, `self._client`. -/
structure ClientState where
  key_vault_url : String
  config : Option Config
  client : Option Conn
deriving DecidableEq

/-- The built-in default Key Vault location (line 21 of `llm.py`). -/
def defaultKeyVaultUrl : String := "https://KV-fs-to-autogen.vault.azure.net/"

/-- `AzureOpenAIClient.__init__`: `self.key_vault_url = env.get("KEY_VAULT_URL")
or <default>`, with empty caches. -/
def initClient (env : EnvMap) : ClientState :=
  { key_vault_url := pyOrS (env "KEY_VAULT_URL") defaultKeyVaultUrl
    config := none
    client := none }

/-- `_load_config_from_vault` (lines 25-87 of `llm.py`).  Returns the config,
the updated instance state, and the number of secret-store session
constructions attempted (for the memoization claims). -/
def loadConfigFromVault (env : EnvMap) (v : Vault) (st : ClientState) :
    Config × ClientState × Nat :=
  match st.config with
  | some c => (c, st, 0)
  | none =>
    let kvUrl := pyOrS (env "KEY_VAULT_URL") st.key_vault_url
    if kvUrl = "" then
      let c := envFallbackBundle env
      (c, { st with config := some c }, 0)
    else
      match v with
      | .unavailable =>
        let c := envFallbackBundle env
        (c, { st with config := some c }, 1)
      | .available s =>
        let c := vaultBundle env s
        (c, { st with config := some c }, 1)

/-- Python exception values relevant here: `ValueError` (raised by
`_get_client` for missing configuration) and plain `Exception` (the wrapper
raised by `generate_content`).  `pyStr` is `str(e)`. -/
inductive PyError where
  | valueError (msg : String)
  | exception (msg : String)
deriving DecidableEq

/-- Python `str(e)` for the exceptions modelled here. -/
def pyStr : PyError → String
  | .valueError m => m
  | .exception m => m

/-- The tuple `("api_key", "api_base", "deployment")` of line 92. -/
def requiredConfigKeys : List String := ["api_key", "api_base", "deployment"]

/-- `config.get(k)` for the keys checked by `_get_client`. -/
def configGet (c : Config) (k : String) : Option String :=
  if k = "api_key" then c.api_key
  else if k = "api_base" then c.api_base
  else if k = "deployment" then c.deployment
  else none

/-- The list comprehension of line 92:
`[k for k in ("api_key", "api_base", "deployment") if not config.get(k)]`. -/
def missingFields (c : Config) : List String :=
  requiredConfigKeys.filter (fun k => !pyTruthy (configGet c k))

/-- The constant remediation part of the `ValueError` message (lines 96-98). -/
def configErrorGuidance : String :=
  ". Provide these via environment variables (AZURE_OPENAI_API_KEY, AZURE_OPENAI_ENDPOINT, AZURE_OPENAI_DEPLOYMENT) " ++
    "or configure them in Azure Key Vault and set KEY_VAULT_URL."

/-- The `ValueError` message of lines 95-101 of `llm.py`. -/
def configErrorMsg (missing : List String) : String :=
  "Missing required Azure OpenAI config: " ++ String.intercalate ", " missing ++
    configErrorGuidance

/-- The `AzureOpenAI(...)` construction of lines 102-106: endpoint, key and
version are the (truthy, hence present) strings of the bundle. -/
def connOf (config : Config) : Conn :=
  { azure_endpoint := config.api_base.getD ""
    api_key := config.api_key.getD ""
    api_version := config.model_version }

/-- `_get_client` (lines 89-107 of `llm.py`).  Returns the connection or the
raised `ValueError`, the updated state, and the session-construction count of
the internal `_load_config_from_vault` call. -/
def getClient (env : EnvMap) (v : Vault) (st : ClientState) :
    Except PyError Conn × ClientState × Nat :=
  match st.client with
  | some cl => (.ok cl, st, 0)
  | none =>
    let r := loadConfigFromVault env v st
    let missing := missingFields r.1
    if missing.isEmpty then
      (.ok (connOf r.1), { r.2.1 with client := some (connOf r.1) }, r.2.2)
    else
      (.error (.valueError (configErrorMsg missing)), r.2.1, r.2.2)

/-- `count_tokens` (lines 10-17 of `llm.py`).  The external tiktoken tokenizer
is a parameter: `some toks` models a successful `encoding.encode(text)`,
`none` models any tokenization failure.  On failure the fallback is
`len(text) // 4`. -/
def count_tokens (tokenize : String → Option (List Nat)) (text : String) : Nat :=
  match tokenize text with
  | some toks => toks.length
  | none => text.length / 4

/-- Rendering of the numbered context sections (lines 122-123 of `llm.py`),
starting the enumeration at `i`. -/
def renderSections : Nat → List String → String
  | _, [] => ""
  | i, s :: rest => "\n" ++ toString i ++ ". " ++ s ++ "\n" ++ renderSections (i + 1) rest

/-- The `workspace_content` block of lines 118-123 of `llm.py`: empty when
`context_sections` is falsy (None or empty), otherwise a fixed header followed
by the sections numbered from 1. -/
def workspaceContent (context_sections : List String) : String :=
  if context_sections.isEmpty then ""
  else "\n=== CONTENT SECTIONS ===\n" ++ renderSections 1 context_sections

/-- One chat message of the request payload. -/
structure ChatMessage where
  role : String
  content : String

/-- The request of `client.chat.completions.create(...)` (lines 295-305). -/
structure ChatRequest where
  model : Option String
  temperature : ℚ
  max_tokens : ℕ
  top_p : ℚ
  frequency_penalty : ℚ
  messages : List ChatMessage

/-- The response as consumed by the code: each element of `choices` is the
`message.content` of the choice. -/
structure ChatResponse where
  choices : List String

/-- The dict returned by `generate_content` on success (lines 316-321). -/
structure GenerationResult where
  content : String
  context_tokens : Nat
  response_tokens : Nat
  full_context : String
deriving DecidableEq

/-- The Capability record (`database.models.Capability`): id, name,
description, and the soft-delete marker `deleted_at`. -/
structure Capability where
  id : Nat
  name : String
  description : String
  deleted_at : Option Nat
deriving DecidableEq

/-- `fetch_all_capabilities` (line 13-14): all records with `deleted_at=None`. -/
def fetch_all_capabilities (db : List Capability) : List Capability :=
  db.filter (fun c => c.deleted_at.isNone)

/-- `fetch_by_id` (lines 17-21): the record with this id and `deleted_at=None`,
or `None`. -/
def fetch_by_id (db : List Capability) (capability_id : Nat) : Option Capability :=
  db.find? (fun c => c.id == capability_id && c.deleted_at.isNone)

/-- `delete_capability` (lines 36-38): `Capability.filter(id=id).delete()`
executes a physical row deletion and returns the number of deleted rows; the
function returns the remaining store and `deleted > 0`. -/
def delete_capability (db : List Capability) (capability_id : Nat) :
    List Capability × Bool :=
  let deleted := db.countP (fun c => c.id == capability_id)
  (db.filter (fun c => c.id != capability_id), deleted != 0)

/-- Substring test used to state facts about error-message contents. -/
def strContains (s pat : String) : Bool :=
  decide (pat.data <:+: s.data)

/-- The template text that the `system_prompt` assignment of lines 125-291 of
`llm.py` was evidently intended to produce, with the braces of the few-shot
JSON examples as literal characters.  Note that the source builds it with an
f-string whose braces are NOT doubled, so CPython never actually produces this
string: the braces are parsed as replacement fields, the module fails to
compile on CPython up to 3.11 (f-string nested too deeply) and on 3.12+ the
nested fields are evaluated as format specifications and raise
`ValueError: Invalid format specifier` on every call; `generate_content_actual`
below models that observed behaviour. -/
def systemPrompt : String := "\nYou are an Expert SME who answers user queries about organizational capabilities, processes, and subprocesses. \nYour task is to return responses in a structured \"process-definition manner\" based on the capability requested by the user. \nThe user will provide a capability name (e.g., \"Program Design & Origination\"), and you must return the relevant core processes and subprocesses exactly in the defined style.\n\n### Rules:\n- Always respond with the capability name, followed by its core processes and subprocesses.\n- Each core process must list its subprocesses and their aligned lifecycle phases.\n- Do not invent new processes or phases. Only return what exists in the knowledge base.\n- If the capability is not found, politely state: \"This capability is not defined in the current framework.\"\n- Keep the response concise, structured, and consistent with the examples.\n\n---\n\n### Few-Shot Examples\n\n#### Example 1\n**User Query:** Strategy & Resource Mobilization  \n**Assistant Response:**\n\x7b\n  \"Capability\": \"Strategy & Resource Mobilization\",\n  \"Core Processes\": [\n    \x7b\n      \"Core Process\": \"Portfolio Strategy Definition\",\n      \"Subprocesses\": [\n        \x7b\n          \"Subprocess\": \"Needs Assessment & Gap Analysis\",\n          \"Aligned Lifecycle Phase\": \"Strategy, Diagnostics, and Pipeline\"\n        \x7d,\n        \x7b\n          \"Subprocess\": \"Funding Instrument Selection\",\n          \"Aligned Lifecycle Phase\": \"Strategy, Diagnostics, and Pipeline\"\n        \x7d\n      ]\n    \x7d,\n    \x7b\n      \"Core Process\": \"Donor & Fund Engagement\",\n      \"Subprocesses\": [\n        \x7b\n          \"Subprocess\": \"Proposal Preparation & Submission\",\n          \"Aligned Lifecycle Phase\": \"Donor Engagement and Fundraising\"\n        \x7d,\n        \x7b\n          \"Subprocess\": \"Grant Agreement Negotiation\",\n          \"Aligned Lifecycle Phase\": \"Donor Engagement and Fundraising\"\n        \x7d,\n        \x7b\n          \"Subprocess\": \"Donor Visibility Planning\",\n          \"Aligned Lifecycle Phase\": \"Donor Engagement and Fundraising\"\n        \x7d\n      ]\n    \x7d\n  ]\n\x7d\n\n---\n\n#### Example 2\n**User Query:** Program Execution & Financial Management  \n**Assistant Response:**\n\x7b\n  \"Capability\": \"Program Execution & Financial Management\",\n  \"Core Processes\": [\n    \x7b\n      \"Core Process\": \"Funds Disbursement\",\n      \"Subprocesses\": [\n        \x7b\n          \"Subprocess\": \"Milestone Verification & Approval\",\n          \"Aligned Lifecycle Phase\": \"Disbursement and Financial Management\"\n        \x7d,\n        \x7b\n          \"Subprocess\": \"Payment Processing (FM & Tax Handling)\",\n          \"Aligned Lifecycle Phase\": \"Disbursement and Financial Management\"\n        \x7d,\n        \x7b\n          \"Subprocess\": \"Financial Reporting & Controls\",\n          \"Aligned Lifecycle Phase\": \"Disbursement and Financial Management\"\n        \x7d\n      ]\n    \x7d,\n    \x7b\n      \"Core Process\": \"Implementation Oversight\",\n      \"Subprocesses\": [\n        \x7b\n          \"Subprocess\": \"Technical Supervision & Monitoring\",\n          \"Aligned Lifecycle Phase\": \"Implementation Supervision and Technical Oversight\"\n        \x7d,\n        \x7b\n          \"Subprocess\": \"Consultant & Output Management\",\n          \"Aligned Lifecycle Phase\": \"Implementation Supervision and Technical Oversight\"\n        \x7d,\n        \x7b\n          \"Subprocess\": \"Change Request Handling\",\n          \"Aligned Lifecycle Phase\": \"Implementation Supervision and Technical Oversight\"\n        \x7d\n      ]\n    \x7d\n  ]\n\x7d\n\n---\n\n#### Example 3\n**User Query:** Performance & Assurance  \n**Assistant Response:**\n\x7b\n  \"Capability\": \"Performance & Assurance\",\n  \"Core Processes\": [\n    \x7b\n      \"Core Process\": \"Monitoring, Evaluation, and Learning (MEL)\",\n      \"Subprocesses\": [\n        \x7b\n          \"Subprocess\": \"KPI Collection & Evidence Verification\",\n          \"Aligned Lifecycle Phase\": \"Monitoring, Evaluation, and Learning (MEL)\"\n        \x7d,\n        \x7b\n          \"Subprocess\": \"Mid-term Completion Evaluation\",\n          \"Aligned Lifecycle Phase\": \"Monitoring, Evaluation, and Learning (MEL)\"\n        \x7d,\n        \x7b\n          \"Subprocess\": \"Lessons Learned Capture & Publication\",\n          \"Aligned Lifecycle Phase\": \"Monitoring, Evaluation, and Learning (MEL)\"\n        \x7d\n      ]\n    \x7d,\n    \x7b\n      \"Core Process\": \"Audit & Compliance Management\",\n      \"Subprocesses\": [\n        \x7b\n          \"Subprocess\": \"External/Internal Audit Response\",\n          \"Aligned Lifecycle Phase\": \"Audit, Compliance, and Visibility\"\n        \x7d,\n        \x7b\n          \"Subprocess\": \"Regulatory Compliance (GDPR, Sanctions)\",\n          \"Aligned Lifecycle Phase\": \"Audit, Compliance, and Visibility\"\n        \x7d,\n        \x7b\n          \"Subprocess\": \"Donor Reporting & Visibility Assurance\",\n          \"Aligned Lifecycle Phase\": \"Audit, Compliance, and Visibility\"\n        \x7d\n      ]\n    \x7d,\n    \x7b\n      \"Core Process\": \"Program Closure & Handoff\",\n      \"Subprocesses\": [\n        \x7b\n          \"Subprocess\": \"Financial Decommitment & Closure\",\n          \"Aligned Lifecycle Phase\": \"Closure and Handover\"\n        \x7d,\n        \x7b\n          \"Subprocess\": \"Document Archiving & Records Management\",\n          \"Aligned Lifecycle Phase\": \"Closure and Handover\"\n        \x7d,\n        \x7b\n          \"Subprocess\": \"Final Handoff & Close-out Letter Issuance\",\n          \"Aligned Lifecycle Phase\": \"Closure and Handover\"\n        \x7d\n      ]\n    \x7d\n  ]\n\x7d\n\n---\n\n### Final Instruction:\nAlways return answers in this structured \"process-definition manner\" when the user provides a capability name.\n"

/-- The request payload of `client.chat.completions.create` (lines 295-305). -/
def chatRequest (config : Config) (user_message : String) : ChatRequest :=
  { model := config.deployment
    temperature := (0.2 : ℚ)
    max_tokens := 600
    top_p := (0.9 : ℚ)
    frequency_penalty := (0.8 : ℚ)
    messages := [{ role := "system", content := systemPrompt },
                 { role := "user", content := user_message }] }

/-- `generate_content` (lines 109-325 of `llm.py`) under the INTENDED reading
of the system-prompt f-string, i.e. with `system_prompt` taken to be the
literal template text `systemPrompt`.  The whole body runs inside `try`, so
any raised exception `e` is re-raised as
`Exception("Content generation failed: " + str(e))`.  The remote API is the
parameter `api`; its `.error` case models any exception raised by the call.
An empty `choices` list makes `response.choices[0]` raise `IndexError`.
Returns the result or raised error, the updated state, and the number of
secret-store session constructions attempted.  The real CPython semantics of
the f-string (its evaluation raises before the API call) is modelled by
`generate_content_actual` below; the two models agree on every path up to and
including connection construction, and differ only once a connection exists. -/
def generate_content (env : EnvMap) (v : Vault) (tokenize : String → Option (List Nat))
    (api : ChatRequest → Except String ChatResponse) (st : ClientState)
    (prompt : String) (context_sections : List String) :
    Except PyError GenerationResult × ClientState × Nat :=
  let r1 := loadConfigFromVault env v st
  let config := r1.1
  let r2 := getClient env v r1.2.1
  let st2 := r2.2.1
  let n := r1.2.2 + r2.2.2
  match r2.1 with
  | .error e => (.error (.exception ("Content generation failed: " ++ pyStr e)), st2, n)
  | .ok _client =>
    let workspace_content := workspaceContent context_sections
    let user_message := prompt
    match api (chatRequest config user_message) with
    | .error msg => (.error (.exception ("Content generation failed: " ++ msg)), st2, n)
    | .ok response =>
      match response.choices with
      | [] => (.error (.exception ("Content generation failed: list index out of range")), st2, n)
      | c0 :: _ =>
        let generated_content := c0.trim
        let full_context := systemPrompt ++ "\n" ++ user_message
        (.ok { content := generated_content
               context_tokens := count_tokens tokenize workspace_content
               response_tokens := count_tokens tokenize generated_content
               full_context := full_context }, st2, n)

/-- `generate_content` (lines 109-325 of `llm.py`) under the OBSERVED CPython
semantics of the system-prompt f-string (CPython 3.12+; on versions up to 3.11
the module does not even compile, so no call is possible at all).  Because the
braces of the few-shot JSON examples are single, the nested replacement fields
are evaluated as format specifications, and the first such
`str.__format__` call raises `ValueError` while the f-string is evaluated:
after `_get_client()` succeeds and before the remote API is invoked.  The
catch-all then wraps it like every other failure.  The version-dependent text
of that `ValueError` is the parameter `fstringError` (on CPython 3.12 it
begins with "Invalid format specifier").  The remote API parameter is kept in
the signature to show it is never consulted. -/
def generate_content_actual (env : EnvMap) (v : Vault)
    (tokenize : String → Option (List Nat)) (fstringError : String)
    (api : ChatRequest → Except String ChatResponse) (st : ClientState)
    (prompt : String) (context_sections : List String) :
    Except PyError GenerationResult × ClientState × Nat :=
  let r1 := loadConfigFromVault env v st
  let r2 := getClient env v r1.2.1
  let st2 := r2.2.1
  let n := r1.2.2 + r2.2.2
  match r2.1 with
  | .error e => (.error (.exception ("Content generation failed: " ++ pyStr e)), st2, n)
  | .ok _client =>
    (.error (.exception ("Content generation failed: " ++ fstringError)), st2, n)

/-! ## Concrete fixtures used by witnesses and counterexamples -/

/-- An environment with no variables set. -/
def envEmpty : EnvMap := fun _ => none

/-- The end-to-end scenario environment of the spec: the three Azure OpenAI
variables set, no Key Vault location configured, no api-version override. -/
def envScenario : EnvMap := fun k =>
  if k = "AZURE_OPENAI_API_KEY" then some "k"
  else if k = "AZURE_OPENAI_ENDPOINT" then some "https://x"
  else if k = "AZURE_OPENAI_DEPLOYMENT" then some "gpt-4"
  else none

/-- A tokenizer that always fails (tiktoken unavailable). -/
def tokNone : String → Option (List Nat) := fun _ => none

/-- A tokenizer that succeeds, producing one token per character. -/
def tokPerChar : String → Option (List Nat) := fun s =>
  some (List.replicate s.length 0)

/-- A stubbed remote API returning the given choice contents. -/
def apiStub (contents : List String) : ChatRequest → Except String ChatResponse :=
  fun _ => .ok { choices := contents }

/-- A stubbed remote API that always raises with message `msg`. -/
def apiFail (msg : String) : ChatRequest → Except String ChatResponse :=
  fun _ => .error msg

/-! ## Helper lemmas about the embedded operations -/

theorem loadConfig_config_some (env : EnvMap) (v : Vault) (st : ClientState)
    (c : Config) (h : st.config = some c) :
    loadConfigFromVault env v st = (c, st, 0) := by
  unfold loadConfigFromVault
  rw [h]

theorem loadConfig_caches (env : EnvMap) (v : Vault) (st : ClientState) :
    (loadConfigFromVault env v st).2.1.config = some (loadConfigFromVault env v st).1 := by
  unfold loadConfigFromVault
  cases h : st.config with
  | some c => simpa using h
  | none =>
    simp only
    split
    · simp
    · cases v <;> simp

theorem loadConfig_client (env : EnvMap) (v : Vault) (st : ClientState) :
    (loadConfigFromVault env v st).2.1.client = st.client := by
  unfold loadConfigFromVault
  cases h : st.config with
  | some c => simp
  | none =>
    simp only
    split
    · simp
    · cases v <;> simp

theorem initClient_kvUrl_ne (env : EnvMap) :
    pyOrS (env "KEY_VAULT_URL") (initClient env).key_vault_url ≠ "" := by
  unfold initClient pyOrS defaultKeyVaultUrl
  cases h : env "KEY_VAULT_URL" with
  | none => simp
  | some s =>
    by_cases hs : s = ""
    · subst hs; simp
    · simp [hs]

theorem loadConfig_counter_one (env : EnvMap) (v : Vault) (st : ClientState)
    (h : st.config = none) (hkv : pyOrS (env "KEY_VAULT_URL") st.key_vault_url ≠ "") :
    (loadConfigFromVault env v st).2.2 = 1 := by
  unfold loadConfigFromVault
  simp only [h]
  rw [if_neg hkv]
  cases v <;> simp

theorem getClient_client_some (env : EnvMap) (v : Vault) (st : ClientState)
    (cl : Conn) (h : st.client = some cl) :
    getClient env v st = (.ok cl, st, 0) := by
  unfold getClient
  rw [h]

theorem getClient_ok (env : EnvMap) (v : Vault) (st : ClientState)
    (h : st.client = none)
    (hm : missingFields (loadConfigFromVault env v st).1 = []) :
    getClient env v st =
      (.ok (connOf (loadConfigFromVault env v st).1),
       { (loadConfigFromVault env v st).2.1 with
           client := some (connOf (loadConfigFromVault env v st).1) },
       (loadConfigFromVault env v st).2.2) := by
  unfold getClient
  rw [h]
  simp [hm]

theorem getClient_err (env : EnvMap) (v : Vault) (st : ClientState)
    (h : st.client = none)
    (hm : missingFields (loadConfigFromVault env v st).1 ≠ []) :
    getClient env v st =
      (.error (.valueError (configErrorMsg (missingFields (loadConfigFromVault env v st).1))),
       (loadConfigFromVault env v st).2.1,
       (loadConfigFromVault env v st).2.2) := by
  unfold getClient
  rw [h]
  simp [hm]

theorem getClient_config_some (env : EnvMap) (v : Vault) (st : ClientState)
    (c : Config) (h : st.config = some c) :
    (getClient env v st).2.1.config = some c := by
  unfold getClient
  cases hcl : st.client with
  | some cl => simpa using h
  | none =>
    rw [loadConfig_config_some env v st c h]
    by_cases hm : missingFields c = [] <;> simp [hm, h]

theorem generate_counter (env : EnvMap) (v : Vault)
    (tok : String → Option (List Nat)) (api : ChatRequest → Except String ChatResponse)
    (st : ClientState) (p : String) (cs : List String) :
    (generate_content env v tok api st p cs).2.2 =
      (loadConfigFromVault env v st).2.2 +
        (getClient env v (loadConfigFromVault env v st).2.1).2.2 := by
  simp only [generate_content]
  cases (getClient env v (loadConfigFromVault env v st).2.1).1 with
  | error e => rfl
  | ok cl =>
    cases api (chatRequest (loadConfigFromVault env v st).1 p) with
    | error msg => rfl
    | ok resp =>
      obtain ⟨choices⟩ := resp
      cases choices with
      | nil => rfl
      | cons c0 rest => rfl

theorem generate_state (env : EnvMap) (v : Vault)
    (tok : String → Option (List Nat)) (api : ChatRequest → Except String ChatResponse)
    (st : ClientState) (p : String) (cs : List String) :
    (generate_content env v tok api st p cs).2.1 =
      (getClient env v (loadConfigFromVault env v st).2.1).2.1 := by
  simp only [generate_content]
  cases (getClient env v (loadConfigFromVault env v st).2.1).1 with
  | error e => rfl
  | ok cl =>
    cases api (chatRequest (loadConfigFromVault env v st).1 p) with
    | error msg => rfl
    | ok resp =>
      obtain ⟨choices⟩ := resp
      cases choices with
      | nil => rfl
      | cons c0 rest => rfl

theorem generate_of_getClient_error (env : EnvMap) (v : Vault)
    (tok : String → Option (List Nat)) (api : ChatRequest → Except String ChatResponse)
    (st : ClientState) (p : String) (cs : List String) (e : PyError)
    (h : (getClient env v (loadConfigFromVault env v st).2.1).1 = .error e) :
    (generate_content env v tok api st p cs).1 =
      .error (.exception ("Content generation failed: " ++ pyStr e)) := by
  simp only [generate_content]
  rw [h]

theorem generate_of_api_error (env : EnvMap) (v : Vault)
    (tok : String → Option (List Nat)) (api : ChatRequest → Except String ChatResponse)
    (st : ClientState) (p : String) (cs : List String) (cl : Conn) (msg : String)
    (h : (getClient env v (loadConfigFromVault env v st).2.1).1 = .ok cl)
    (ha : api (chatRequest (loadConfigFromVault env v st).1 p) = .error msg) :
    (generate_content env v tok api st p cs).1 =
      .error (.exception ("Content generation failed: " ++ msg)) := by
  simp only [generate_content]
  rw [h, ha]

theorem generate_of_api_ok (env : EnvMap) (v : Vault)
    (tok : String → Option (List Nat)) (api : ChatRequest → Except String ChatResponse)
    (st : ClientState) (p : String) (cs : List String) (cl : Conn)
    (c0 : String) (rest : List String)
    (h : (getClient env v (loadConfigFromVault env v st).2.1).1 = .ok cl)
    (ha : api (chatRequest (loadConfigFromVault env v st).1 p) = .ok { choices := c0 :: rest }) :
    (generate_content env v tok api st p cs).1 =
      .ok { content := c0.trim
            context_tokens := count_tokens tok (workspaceContent cs)
            response_tokens := count_tokens tok c0.trim
            full_context := systemPrompt ++ "\n" ++ p } := by
  simp only [generate_content]
  rw [h, ha]

/-- The bundle `resolve()` produces on a fresh client instance. -/
def resolvedBundle (env : EnvMap) (v : Vault) : Config :=
  (loadConfigFromVault env v (initClient env)).1

theorem loadConfig_unavailable_bundle (env : EnvMap) (st : ClientState)
    (h : st.config = none) :
    (loadConfigFromVault env .unavailable st).1 = envFallbackBundle env := by
  simp only [loadConfigFromVault, h]
  split <;> rfl

theorem loadConfig_available_bundle (env : EnvMap) (s : VaultSession) (st : ClientState)
    (h : st.config = none) (hkv : pyOrS (env "KEY_VAULT_URL") st.key_vault_url ≠ "") :
    (loadConfigFromVault env (.available s) st).1 = vaultBundle env s := by
  simp only [loadConfigFromVault, h]
  rw [if_neg hkv]

theorem missingFields_eq_nil_iff (c : Config) :
    missingFields c = [] ↔
      (pyTruthy c.api_key && pyTruthy c.api_base && pyTruthy c.deployment) = true := by
  cases hk : pyTruthy c.api_key <;> cases hb : pyTruthy c.api_base <;>
    cases hd : pyTruthy c.deployment <;>
    simp [missingFields, requiredConfigKeys, configGet, hk, hb, hd]

theorem mem_missingFields (c : Config) (k : String) :
    k ∈ missingFields c ↔ (k ∈ requiredConfigKeys ∧ pyTruthy (configGet c k) = false) := by
  simp [missingFields, List.mem_filter]

theorem strContains_guidance (m : List String) (pat : String)
    (h : pat.data <:+: configErrorGuidance.data) :
    strContains (configErrorMsg m) pat = true := by
  unfold strContains configErrorMsg
  rw [String.data_append]
  exact decide_eq_true (List.IsInfix.trans h (List.suffix_append _ _).isInfix)

theorem getClient_ok_caches (env : EnvMap) (v : Vault) (st : ClientState) (cl : Conn)
    (h : (getClient env v st).1 = .ok cl) :
    (getClient env v st).2.1.client = some cl := by
  cases hc : st.client with
  | some c =>
    have he := getClient_client_some env v st c hc
    rw [he] at h ⊢
    simp at h
    simp [hc, h]
  | none =>
    by_cases hm : missingFields (loadConfigFromVault env v st).1 = []
    · have he := getClient_ok env v st hc hm
      rw [he] at h ⊢
      simp at h ⊢
      exact h
    · have he := getClient_err env v st hc hm
      rw [he] at h
      simp at h

/-! ## Claim theorems -/

/-- C3: for every process environment, if establishing the secret-store session
fails, resolve() does not propagate the error but returns the bundle whose
api_key, api_base and deployment equal the corresponding environment variables,
and whose api_version equals its environment variable or the literal default
"2024-02-01" when that variable is unset. -/
theorem c3_session_failure_env_fallback (env : EnvMap) (st : ClientState)
    (h : st.config = none) :
    (loadConfigFromVault env .unavailable st).1 = envFallbackBundle env ∧
    (loadConfigFromVault env .unavailable st).1.api_key = env "AZURE_OPENAI_API_KEY" ∧
    (loadConfigFromVault env .unavailable st).1.api_base = env "AZURE_OPENAI_ENDPOINT" ∧
    (loadConfigFromVault env .unavailable st).1.model_version =
      (env "AZURE_OPENAI_API_VERSION").getD "2024-02-01" ∧
    (loadConfigFromVault env .unavailable st).1.deployment = env "AZURE_OPENAI_DEPLOYMENT" ∧
    (env "AZURE_OPENAI_API_VERSION" = none →
      (loadConfigFromVault env .unavailable st).1.model_version = "2024-02-01") := by
  have hb := loadConfig_unavailable_bundle env st h
  refine ⟨hb, ?_, ?_, ?_, ?_, ?_⟩ <;> rw [hb]
  · rfl
  · rfl
  · rfl
  · rfl
  · intro hv
    simp [envFallbackBundle, hv]

/-- C3 witness: a concrete environment with the session failing. -/
theorem c3_witness :
    (loadConfigFromVault envScenario .unavailable (initClient envScenario)).1 =
      envFallbackBundle envScenario ∧
    (loadConfigFromVault envScenario .unavailable (initClient envScenario)).1.model_version =
      "2024-02-01" :=
  ⟨(c3_session_failure_env_fallback envScenario (initClient envScenario) rfl).1,
   (c3_session_failure_env_fallback envScenario (initClient envScenario) rfl).2.2.2.2.2 rfl⟩

/-- C7: count_tokens returns the exact token count of the tokenizer when
tokenization succeeds, and integer division of the character length by 4 on
any tokenization failure; it is a total function (never raises outward), and
for the empty string it returns 0 in either case (tiktoken encodes the empty
string to the empty token list, modelled by the hypothesis of the last
conjunct). -/
theorem c7_count_tokens (tokenize : String → Option (List Nat)) (text : String) :
    (∀ toks, tokenize text = some toks → count_tokens tokenize text = toks.length) ∧
    (tokenize text = none → count_tokens tokenize text = text.length / 4) ∧
    (tokenize "" = none → count_tokens tokenize "" = 0) ∧
    (tokenize "" = some [] → count_tokens tokenize "" = 0) := by
  refine ⟨?_, ?_, ?_, ?_⟩
  · intro toks h
    simp [count_tokens, h]
  · intro h
    simp [count_tokens, h]
  · intro h
    simp [count_tokens, h]
  · intro h
    simp [count_tokens, h]

/-- C7 witness: the two tokenizer behaviours at concrete inputs. -/
theorem c7_witness :
    count_tokens tokPerChar "abcd" = 4 ∧
    count_tokens tokNone "abcdefgh" = 2 ∧
    count_tokens tokNone "" = 0 ∧
    count_tokens tokPerChar "" = 0 := by
  refine ⟨?_, ?_, ?_, ?_⟩
  · have h := (c7_count_tokens tokPerChar "abcd").1 (List.replicate 4 0) rfl
    simpa using h
  · have h := (c7_count_tokens tokNone "abcdefgh").2.1 rfl
    simpa using h
  · exact (c7_count_tokens tokNone "").2.2.1 rfl
  · exact (c7_count_tokens tokPerChar "").2.2.2 rfl

/-- C10: for each configuration field, when the secret store successfully
returns an empty-string value, resolve() treats the field as absent and
back-fills it from the corresponding environment variable (api_version still
defaulting to "2024-02-01"): the back-fill applies whenever the store value is
falsy, not only when the fetch raised. -/
theorem c10_empty_secret_backfill (env : EnvMap) (s : VaultSession) :
    (s.azureLLMKey = .ok (some "") →
      (resolvedBundle env (.available s)).api_key = env "AZURE_OPENAI_API_KEY") ∧
    (s.azureOpenAiBase = .ok (some "") →
      (resolvedBundle env (.available s)).api_base = env "AZURE_OPENAI_ENDPOINT") ∧
    (s.azureOpenAiVersion = .ok (some "") →
      (resolvedBundle env (.available s)).model_version =
        (env "AZURE_OPENAI_API_VERSION").getD "2024-02-01") ∧
    (s.azureOpenAiDeployment = .ok (some "") →
      (resolvedBundle env (.available s)).deployment = env "AZURE_OPENAI_DEPLOYMENT") := by
  have hb : resolvedBundle env (.available s) = vaultBundle env s :=
    loadConfig_available_bundle env s (initClient env) rfl (initClient_kvUrl_ne env)
  refine ⟨?_, ?_, ?_, ?_⟩ <;> intro h <;> rw [hb] <;>
    simp [vaultBundle, SecretFetch.fetched, h, pyOr, pyOrS, pyTruthy]

/-- C10 witness: a session returning the empty string for every secret, with a
concrete environment. -/
theorem c10_witness :
    (resolvedBundle envScenario
        (.available { azureLLMKey := .ok (some ""), azureOpenAiBase := .ok (some "")
                      azureOpenAiVersion := .ok (some ""), azureOpenAiDeployment := .ok (some "") })).api_key =
      envScenario "AZURE_OPENAI_API_KEY" ∧
    (resolvedBundle envScenario
        (.available { azureLLMKey := .ok (some ""), azureOpenAiBase := .ok (some "")
                      azureOpenAiVersion := .ok (some ""), azureOpenAiDeployment := .ok (some "") })).model_version =
      (envScenario "AZURE_OPENAI_API_VERSION").getD "2024-02-01" :=
  ⟨(c10_empty_secret_backfill envScenario _).1 rfl,
   (c10_empty_secret_backfill envScenario _).2.2.1 rfl⟩

/-- C9 (code behaviour at the failing input): `delete_capability` physically
removes the matching record from the store rather than soft-deleting it, and
returns false on a store with no record of that id.  After the call the record
is gone from storage entirely, not merely excluded from fetches. -/
theorem c9_hard_delete_behavior :
    delete_capability [{ id := 1, name := "Strategy", description := "d", deleted_at := none }] 1 =
      ([], true) ∧
    (delete_capability ([] : List Capability) 2).2 = false ∧
    (delete_capability [{ id := 1, name := "Strategy", description := "d", deleted_at := none }] 1).1 =
      [] := by
  exact ⟨rfl, rfl, rfl⟩

/-- C4: with the secret-store session established, the four fetches are
isolated: when exactly one fetch fails (and the other three succeed with
non-empty secret values), the three successful fields equal the values fetched
from the store, only the failed field is back-filled from its environment
fallback, and the failure neither aborts the other fetches nor triggers the
full environment fallback. -/
theorem c4_fetch_isolation (env : EnvMap) (s : VaultSession) :
    (∀ b mv d, s.azureLLMKey = .err →
      s.azureOpenAiBase = .ok (some b) → b ≠ "" →
      s.azureOpenAiVersion = .ok (some mv) → mv ≠ "" →
      s.azureOpenAiDeployment = .ok (some d) → d ≠ "" →
      resolvedBundle env (.available s) =
        { api_key := env "AZURE_OPENAI_API_KEY", api_base := some b,
          model_version := mv, deployment := some d }) ∧
    (∀ a mv d, s.azureLLMKey = .ok (some a) → a ≠ "" →
      s.azureOpenAiBase = .err →
      s.azureOpenAiVersion = .ok (some mv) → mv ≠ "" →
      s.azureOpenAiDeployment = .ok (some d) → d ≠ "" →
      resolvedBundle env (.available s) =
        { api_key := some a, api_base := env "AZURE_OPENAI_ENDPOINT",
          model_version := mv, deployment := some d }) ∧
    (∀ a b d, s.azureLLMKey = .ok (some a) → a ≠ "" →
      s.azureOpenAiBase = .ok (some b) → b ≠ "" →
      s.azureOpenAiVersion = .err →
      s.azureOpenAiDeployment = .ok (some d) → d ≠ "" →
      resolvedBundle env (.available s) =
        { api_key := some a, api_base := some b,
          model_version := (env "AZURE_OPENAI_API_VERSION").getD "2024-02-01",
          deployment := some d }) ∧
    (∀ a b mv, s.azureLLMKey = .ok (some a) → a ≠ "" →
      s.azureOpenAiBase = .ok (some b) → b ≠ "" →
      s.azureOpenAiVersion = .ok (some mv) → mv ≠ "" →
      s.azureOpenAiDeployment = .err →
      resolvedBundle env (.available s) =
        { api_key := some a, api_base := some b,
          model_version := mv, deployment := env "AZURE_OPENAI_DEPLOYMENT" }) := by
  have hb : resolvedBundle env (.available s) = vaultBundle env s :=
    loadConfig_available_bundle env s (initClient env) rfl (initClient_kvUrl_ne env)
  refine ⟨?_, ?_, ?_, ?_⟩
  · intro b mv d h1 h2 h2n h3 h3n h4 h4n
    rw [hb]
    simp [vaultBundle, SecretFetch.fetched, h1, h2, h3, h4, pyOr, pyOrS, pyTruthy,
      h2n, h3n, h4n]
  · intro a mv d h1 h1n h2 h3 h3n h4 h4n
    rw [hb]
    simp [vaultBundle, SecretFetch.fetched, h1, h2, h3, h4, pyOr, pyOrS, pyTruthy,
      h1n, h3n, h4n]
  · intro a b d h1 h1n h2 h2n h3 h4 h4n
    rw [hb]
    simp [vaultBundle, SecretFetch.fetched, h1, h2, h3, h4, pyOr, pyOrS, pyTruthy,
      h1n, h2n, h4n]
  · intro a b mv h1 h1n h2 h2n h3 h3n h4
    rw [hb]
    simp [vaultBundle, SecretFetch.fetched, h1, h2, h3, h4, pyOr, pyOrS, pyTruthy,
      h1n, h2n, h3n]

/-- C4 witness: the api_key fetch fails, the other three succeed. -/
theorem c4_witness :
    resolvedBundle envScenario
        (.available { azureLLMKey := .err, azureOpenAiBase := .ok (some "https://kv")
                      azureOpenAiVersion := .ok (some "2024-06-01")
                      azureOpenAiDeployment := .ok (some "gpt-4o") }) =
      { api_key := envScenario "AZURE_OPENAI_API_KEY", api_base := some "https://kv",
        model_version := "2024-06-01", deployment := some "gpt-4o" } :=
  (c4_fetch_isolation envScenario _).1 "https://kv" "2024-06-01" "gpt-4o"
    rfl rfl (by decide) rfl (by decide) rfl (by decide)

/-- C1 (amended): on a fresh client instance, get_connection() raises a
ConfigurationError (ValueError) if and only if at least one of api_key,
api_base, deployment is falsy in the resolved bundle; the error message lists
exactly the missing fields and its remediation guidance names the environment
variables AZURE_OPENAI_API_KEY, AZURE_OPENAI_ENDPOINT, AZURE_OPENAI_DEPLOYMENT
and KEY_VAULT_URL (pointing to Azure Key Vault, without naming the individual
secret names); when all three are present it constructs and returns the
connection bound to the bundle. -/
theorem c1_get_connection_validation (env : EnvMap) (v : Vault) :
    (missingFields (resolvedBundle env v) = [] →
      (getClient env v (initClient env)).1 = .ok (connOf (resolvedBundle env v))) ∧
    (missingFields (resolvedBundle env v) ≠ [] →
      (getClient env v (initClient env)).1 =
        .error (.valueError (configErrorMsg (missingFields (resolvedBundle env v))))) ∧
    (missingFields (resolvedBundle env v) = [] ↔
      (pyTruthy (resolvedBundle env v).api_key && pyTruthy (resolvedBundle env v).api_base &&
        pyTruthy (resolvedBundle env v).deployment) = true) ∧
    (∀ k, k ∈ missingFields (resolvedBundle env v) ↔
      (k ∈ requiredConfigKeys ∧ pyTruthy (configGet (resolvedBundle env v) k) = false)) ∧
    (∀ m, strContains (configErrorMsg m) "AZURE_OPENAI_API_KEY" = true ∧
      strContains (configErrorMsg m) "AZURE_OPENAI_ENDPOINT" = true ∧
      strContains (configErrorMsg m) "AZURE_OPENAI_DEPLOYMENT" = true ∧
      strContains (configErrorMsg m) "KEY_VAULT_URL" = true) := by
  refine ⟨?_, ?_, missingFields_eq_nil_iff _, mem_missingFields _, ?_⟩
  · intro hm
    have he := getClient_ok env v (initClient env) rfl hm
    rw [he]
    rfl
  · intro hm
    have he := getClient_err env v (initClient env) rfl hm
    rw [he]
    rfl
  · intro m
    refine ⟨?_, ?_, ?_, ?_⟩ <;> exact strContains_guidance m _ (by decide)

/-- C1 witness: the scenario environment resolves to a complete bundle and the
connection is built; the empty environment is missing all three fields and the
error message is the full `ValueError` text. -/
theorem c1_validation_witness :
    (getClient envScenario .unavailable (initClient envScenario)).1 =
      .ok (connOf (resolvedBundle envScenario .unavailable)) ∧
    (getClient envEmpty .unavailable (initClient envEmpty)).1 =
      .error (.valueError (configErrorMsg (missingFields (resolvedBundle envEmpty .unavailable)))) ∧
    strContains (configErrorMsg ["api_key"]) "KEY_VAULT_URL" = true :=
  ⟨(c1_get_connection_validation envScenario .unavailable).1 rfl,
   (c1_get_connection_validation envEmpty .unavailable).2.1 (by decide),
   ((c1_get_connection_validation envEmpty .unavailable).2.2.2.2 ["api_key"]).2.2.2⟩

/-- C1 counterexample: the claim says the remediation guidance names the secret
names to set, but the message for a bundle with all three fields missing does
not contain any of the four Key Vault secret names. -/
theorem c1_secret_names_cex :
    (getClient envEmpty .unavailable (initClient envEmpty)).1 =
      .error (.valueError (configErrorMsg ["api_key", "api_base", "deployment"])) ∧
    strContains (configErrorMsg ["api_key", "api_base", "deployment"]) "AzureLLMKey" = false ∧
    strContains (configErrorMsg ["api_key", "api_base", "deployment"]) "AzureOpenAiBase" = false ∧
    strContains (configErrorMsg ["api_key", "api_base", "deployment"]) "AzureOpenAiVersion" = false ∧
    strContains (configErrorMsg ["api_key", "api_base", "deployment"]) "AzureOpenAiDeployment" = false := by
  refine ⟨rfl, ?_, ?_, ?_, ?_⟩ <;> decide

/-- C2 (amended): the ConfigurationError raised during connection construction
inside generate() does NOT propagate unchanged: the catch-all around the whole
body wraps it, exactly like failures of the remote API invocation, into a
generic generation failure whose message is "Content generation failed: "
followed by the message of the original error; no failure is retried. -/
theorem c2_generate_wraps_all_errors (env : EnvMap) (v : Vault)
    (tok : String → Option (List Nat)) (api : ChatRequest → Except String ChatResponse)
    (st : ClientState) (p : String) (cs : List String) :
    (∀ m, (getClient env v (loadConfigFromVault env v st).2.1).1 = .error (.valueError m) →
      (generate_content env v tok api st p cs).1 =
        .error (.exception ("Content generation failed: " ++ m))) ∧
    (∀ cl msg, (getClient env v (loadConfigFromVault env v st).2.1).1 = .ok cl →
      api (chatRequest (loadConfigFromVault env v st).1 p) = .error msg →
      (generate_content env v tok api st p cs).1 =
        .error (.exception ("Content generation failed: " ++ msg))) := by
  constructor
  · intro m h
    have hg := generate_of_getClient_error env v tok api st p cs (.valueError m) h
    simpa [pyStr] using hg
  · intro cl msg h ha
    exact generate_of_api_error env v tok api st p cs cl msg h ha

/-- C2 witness: with every configuration source empty the ValueError of
_get_client is wrapped; with a complete configuration an API failure is
wrapped the same way. -/
theorem c2_wrapping_witness :
    (generate_content envEmpty .unavailable tokNone (apiStub ["X"]) (initClient envEmpty) "p" []).1 =
      .error (.exception ("Content generation failed: " ++
        configErrorMsg ["api_key", "api_base", "deployment"])) ∧
    (generate_content envScenario .unavailable tokNone (apiFail "boom") (initClient envScenario) "p" []).1 =
      .error (.exception ("Content generation failed: " ++ "boom")) :=
  ⟨(c2_generate_wraps_all_errors envEmpty .unavailable tokNone (apiStub ["X"])
      (initClient envEmpty) "p" []).1 (configErrorMsg ["api_key", "api_base", "deployment"]) rfl,
   (c2_generate_wraps_all_errors envScenario .unavailable tokNone (apiFail "boom")
      (initClient envScenario) "p" []).2 (connOf (resolvedBundle envScenario .unavailable)) "boom"
      rfl rfl⟩

/-- C2 counterexample: at a concrete input where connection construction fails,
the error surfaced by generate() is the wrapped generic Exception, not the
unchanged ConfigurationError the claim asserts. -/
theorem c2_propagates_unchanged_cex :
    (generate_content envEmpty .unavailable tokNone (apiStub ["X"]) (initClient envEmpty) "q" []).1 =
      .error (.exception ("Content generation failed: " ++
        configErrorMsg ["api_key", "api_base", "deployment"])) ∧
    (generate_content envEmpty .unavailable tokNone (apiStub ["X"]) (initClient envEmpty) "q" []).1 ≠
      .error (.valueError (configErrorMsg ["api_key", "api_base", "deployment"])) := by
  refine ⟨rfl, ?_⟩
  intro h
  rw [show (generate_content envEmpty .unavailable tokNone (apiStub ["X"]) (initClient envEmpty) "q" []).1 =
      .error (.exception ("Content generation failed: " ++
        configErrorMsg ["api_key", "api_base", "deployment"])) from rfl] at h
  simp at h

/-- C5 (amended): because the built-in default location string is non-empty,
an empty/falsy KEY_VAULT_URL override does not bypass the secret store:
resolve() still attempts exactly one secret-store session (at the default
location), and the bundle is built entirely from the environment variables
only when that session fails; in the end-to-end scenario environment with the
session failing, resolve() returns the bundle
(api_key "k", api_base "https://x", api_version "2024-02-01", deployment
"gpt-4") and get_connection() succeeds. -/
theorem c5_default_location_still_contacts_store (env : EnvMap) (v : Vault)
    (h : pyTruthy (env "KEY_VAULT_URL") = false) :
    (loadConfigFromVault env v (initClient env)).2.2 = 1 ∧
    (v = .unavailable → resolvedBundle env v = envFallbackBundle env) ∧
    (v = .unavailable → env "AZURE_OPENAI_API_KEY" = some "k" →
      env "AZURE_OPENAI_ENDPOINT" = some "https://x" →
      env "AZURE_OPENAI_DEPLOYMENT" = some "gpt-4" →
      env "AZURE_OPENAI_API_VERSION" = none →
      resolvedBundle env v =
        { api_key := some "k", api_base := some "https://x",
          model_version := "2024-02-01", deployment := some "gpt-4" } ∧
      (getClient env v (initClient env)).1 =
        .ok { azure_endpoint := "https://x", api_key := "k", api_version := "2024-02-01" }) := by
  refine ⟨loadConfig_counter_one env v (initClient env) rfl (initClient_kvUrl_ne env), ?_, ?_⟩
  · intro hv
    subst hv
    exact loadConfig_unavailable_bundle env (initClient env) rfl
  · intro hv hk hb hd hver
    subst hv
    have hbundle : resolvedBundle env .unavailable =
        { api_key := some "k", api_base := some "https://x",
          model_version := "2024-02-01", deployment := some "gpt-4" } := by
      unfold resolvedBundle
      rw [loadConfig_unavailable_bundle env (initClient env) rfl]
      simp [envFallbackBundle, hk, hb, hd, hver]
    refine ⟨hbundle, ?_⟩
    have hm : missingFields (resolvedBundle env .unavailable) = [] := by
      rw [hbundle]
      decide
    have he := getClient_ok env .unavailable (initClient env) rfl hm
    rw [he]
    show Except.ok (connOf (resolvedBundle env .unavailable)) = _
    rw [hbundle]
    rfl

/-- C5 witness: the scenario environment (no location configured) with the
session failing. -/
theorem c5_scenario_witness :
    (loadConfigFromVault envScenario .unavailable (initClient envScenario)).2.2 = 1 ∧
    resolvedBundle envScenario .unavailable =
      { api_key := some "k", api_base := some "https://x",
        model_version := "2024-02-01", deployment := some "gpt-4" } ∧
    (getClient envScenario .unavailable (initClient envScenario)).1 =
      .ok { azure_endpoint := "https://x", api_key := "k", api_version := "2024-02-01" } :=
  ⟨(c5_default_location_still_contacts_store envScenario .unavailable rfl).1,
   ((c5_default_location_still_contacts_store envScenario .unavailable rfl).2.2
      rfl rfl rfl rfl rfl).1,
   ((c5_default_location_still_contacts_store envScenario .unavailable rfl).2.2
      rfl rfl rfl rfl rfl).2⟩

/-- C5 counterexample: with no location configured but the store reachable,
resolve() does contact the secret store (one session construction) and the
bundle is not built entirely from the environment: the api_key comes from the
store, not from AZURE_OPENAI_API_KEY. -/
theorem c5_no_location_cex :
    (loadConfigFromVault envScenario
        (.available { azureLLMKey := .ok (some "vault-key"), azureOpenAiBase := .err
                      azureOpenAiVersion := .err, azureOpenAiDeployment := .err })
        (initClient envScenario)).2.2 = 1 ∧
    (resolvedBundle envScenario
        (.available { azureLLMKey := .ok (some "vault-key"), azureOpenAiBase := .err
                      azureOpenAiVersion := .err, azureOpenAiDeployment := .err })).api_key =
      some "vault-key" ∧
    (resolvedBundle envScenario
        (.available { azureLLMKey := .ok (some "vault-key"), azureOpenAiBase := .err
                      azureOpenAiVersion := .err, azureOpenAiDeployment := .err })).api_key ≠
      envScenario "AZURE_OPENAI_API_KEY" := by
  refine ⟨rfl, rfl, ?_⟩
  decide

/-- Intended assembly of the generation result (lines 307-321): on a
successful API call, the INTENDED model of generate() returns the text of the
first completion with surrounding whitespace trimmed as content, context token
count computed from the workspace-content block (the empty string when
context_sections is empty), response token count computed from the trimmed
generated text, and full_context equal to the system prompt, a newline, and
the raw user prompt.  In the real program this path is unreachable because the
system-prompt f-string raises first (see `generate_content_actual` and the C6
theorem); this lemma documents what the code was written to produce. -/
theorem generate_intended_success (env : EnvMap) (v : Vault)
    (tok : String → Option (List Nat)) (api : ChatRequest → Except String ChatResponse)
    (p : String) (cs : List String) (c0 : String) (rest : List String)
    (hok : missingFields (resolvedBundle env v) = [])
    (happi : ∀ req, api req = .ok { choices := c0 :: rest }) :
    (generate_content env v tok api (initClient env) p cs).1 =
      .ok { content := c0.trim
            context_tokens := count_tokens tok (workspaceContent cs)
            response_tokens := count_tokens tok c0.trim
            full_context := systemPrompt ++ "\n" ++ p } ∧
    (cs = [] → workspaceContent cs = "" ∧
      count_tokens tok (workspaceContent cs) = count_tokens tok "") := by
  have hmemo : loadConfigFromVault env v ((loadConfigFromVault env v (initClient env)).2.1) =
      ((loadConfigFromVault env v (initClient env)).1,
       (loadConfigFromVault env v (initClient env)).2.1, 0) :=
    loadConfig_config_some env v _ _ (loadConfig_caches env v (initClient env))
  have hcl : ((loadConfigFromVault env v (initClient env)).2.1).client = none := by
    rw [loadConfig_client]
    rfl
  have hg := getClient_ok env v ((loadConfigFromVault env v (initClient env)).2.1) hcl
    (by rw [hmemo]; exact hok)
  have hg1 : (getClient env v ((loadConfigFromVault env v (initClient env)).2.1)).1 =
      .ok (connOf (resolvedBundle env v)) := by
    rw [hg, hmemo]
    rfl
  constructor
  · exact generate_of_api_ok env v tok api (initClient env) p cs
      (connOf (resolvedBundle env v)) c0 rest hg1 (happi _)
  · intro hcs
    subst hcs
    exact ⟨rfl, rfl⟩

/-- The intended assembly at the end-to-end scenario of the spec, with a
stubbed API returning "X" and no context sections. -/
theorem generate_intended_success_scenario :
    (generate_content envScenario .unavailable tokNone (apiStub ["X"])
        (initClient envScenario) "Strategy & Resource Mobilization" []).1 =
      .ok { content := "X".trim
            context_tokens := count_tokens tokNone (workspaceContent [])
            response_tokens := count_tokens tokNone "X".trim
            full_context := systemPrompt ++ "\n" ++ "Strategy & Resource Mobilization" } ∧
    workspaceContent [] = "" :=
  ⟨(generate_intended_success envScenario .unavailable tokNone (apiStub ["X"])
      "Strategy & Resource Mobilization" [] "X" [] rfl (fun _ => rfl)).1,
   ((generate_intended_success envScenario .unavailable tokNone (apiStub ["X"])
      "Strategy & Resource Mobilization" [] "X" [] rfl (fun _ => rfl)).2 rfl).1⟩

/-- C8: resolve() and get_connection() are memoized per client instance --
after a completed call every later call returns the identical cached bundle
(resp. connection) with no further secret-store session construction -- and
generate() called twice on a fresh instance constructs the secret-store
session exactly once (first call) and zero times (second call). -/
theorem c8_memoization :
    (∀ (env : EnvMap) (v : Vault) (env2 : EnvMap) (v2 : Vault) (st : ClientState),
      loadConfigFromVault env2 v2 (loadConfigFromVault env v st).2.1 =
        ((loadConfigFromVault env v st).1, (loadConfigFromVault env v st).2.1, 0)) ∧
    (∀ (env : EnvMap) (v : Vault) (env2 : EnvMap) (v2 : Vault) (st : ClientState) (cl : Conn),
      (getClient env v st).1 = .ok cl →
        getClient env2 v2 (getClient env v st).2.1 = (.ok cl, (getClient env v st).2.1, 0)) ∧
    (∀ (env : EnvMap) (v : Vault) (tok tok2 : String → Option (List Nat))
        (api api2 : ChatRequest → Except String ChatResponse)
        (p p2 : String) (cs cs2 : List String),
      (generate_content env v tok api (initClient env) p cs).2.2 = 1 ∧
      (generate_content env v tok2 api2
          (generate_content env v tok api (initClient env) p cs).2.1 p2 cs2).2.2 = 0) := by
  refine ⟨?_, ?_, ?_⟩
  · intro env v env2 v2 st
    exact loadConfig_config_some env2 v2 _ _ (loadConfig_caches env v st)
  · intro env v env2 v2 st cl h
    exact getClient_client_some env2 v2 _ cl (getClient_ok_caches env v st cl h)
  · intro env v tok tok2 api api2 p p2 cs cs2
    have hc2 : (generate_content env v tok api (initClient env) p cs).2.1.config =
        some (loadConfigFromVault env v (initClient env)).1 := by
      rw [generate_state]
      exact getClient_config_some env v _ _ (loadConfig_caches env v (initClient env))
    constructor
    · rw [generate_counter]
      have h1 : (loadConfigFromVault env v (initClient env)).2.2 = 1 :=
        loadConfig_counter_one env v (initClient env) rfl (initClient_kvUrl_ne env)
      have h2 : (getClient env v (loadConfigFromVault env v (initClient env)).2.1).2.2 = 0 := by
        have hmemo : loadConfigFromVault env v ((loadConfigFromVault env v (initClient env)).2.1) =
            ((loadConfigFromVault env v (initClient env)).1,
             (loadConfigFromVault env v (initClient env)).2.1, 0) :=
          loadConfig_config_some env v _ _ (loadConfig_caches env v (initClient env))
        have hcl : ((loadConfigFromVault env v (initClient env)).2.1).client = none := by
          rw [loadConfig_client]
          rfl
        by_cases hm : missingFields (loadConfigFromVault env v
            ((loadConfigFromVault env v (initClient env)).2.1)).1 = []
        · rw [getClient_ok env v _ hcl hm, hmemo]
        · rw [getClient_err env v _ hcl hm, hmemo]
      rw [h1, h2]
    · rw [generate_counter]
      have hmemo2 : loadConfigFromVault env v
          (generate_content env v tok api (initClient env) p cs).2.1 =
          ((loadConfigFromVault env v (initClient env)).1,
           (generate_content env v tok api (initClient env) p cs).2.1, 0) :=
        loadConfig_config_some env v _ _ hc2
      rw [hmemo2]
      have hg : (getClient env v
          (generate_content env v tok api (initClient env) p cs).2.1).2.2 = 0 := by
        cases hcl2 : (generate_content env v tok api (initClient env) p cs).2.1.client with
        | some c => rw [getClient_client_some env v _ c hcl2]
        | none =>
          by_cases hm : missingFields (loadConfigFromVault env v
              (generate_content env v tok api (initClient env) p cs).2.1).1 = []
          · rw [getClient_ok env v _ hcl2 hm, hmemo2]
          · rw [getClient_err env v _ hcl2 hm, hmemo2]
      rw [hg]

/-- C8 witness: with the complete scenario environment, a second
get_connection() on the updated instance state returns the cached connection
with no session construction. -/
theorem c8_memoization_witness :
    getClient envScenario .unavailable
        (getClient envScenario .unavailable (initClient envScenario)).2.1 =
      (.ok (connOf (resolvedBundle envScenario .unavailable)),
       (getClient envScenario .unavailable (initClient envScenario)).2.1, 0) :=
  c8_memoization.2.1 envScenario .unavailable envScenario .unavailable (initClient envScenario)
    (connOf (resolvedBundle envScenario .unavailable)) rfl

/-- C6 (code bug): the described success result is never produced, because the
system-prompt f-string of lines 125-291 uses single braces.  Under the
observed CPython semantics, every call of generate(), with any environment,
secret store, tokenizer, remote API, instance state, prompt and context
sections, surfaces a wrapped generic Exception and never a GenerationResult;
in particular, whenever connection construction succeeds the surfaced error
wraps the format-specifier ValueError raised while the f-string is evaluated,
before the remote API is ever invoked. -/
theorem c6_generation_never_succeeds (env : EnvMap) (v : Vault)
    (tok : String → Option (List Nat)) (fmsg : String)
    (api : ChatRequest → Except String ChatResponse) (st : ClientState)
    (p : String) (cs : List String) :
    (∃ m, (generate_content_actual env v tok fmsg api st p cs).1 = .error (.exception m)) ∧
    (∀ r, (generate_content_actual env v tok fmsg api st p cs).1 ≠ .ok r) ∧
    (∀ cl, (getClient env v (loadConfigFromVault env v st).2.1).1 = .ok cl →
      (generate_content_actual env v tok fmsg api st p cs).1 =
        .error (.exception ("Content generation failed: " ++ fmsg))) := by
  refine ⟨?_, ?_, ?_⟩
  · simp only [generate_content_actual]
    cases hg : (getClient env v (loadConfigFromVault env v st).2.1).1 with
    | error e => exact ⟨"Content generation failed: " ++ pyStr e, rfl⟩
    | ok cl => exact ⟨"Content generation failed: " ++ fmsg, rfl⟩
  · intro r
    simp only [generate_content_actual]
    cases hg : (getClient env v (loadConfigFromVault env v st).2.1).1 with
    | error e => simp
    | ok cl => simp
  · intro cl h
    simp only [generate_content_actual]
    rw [h]

/-- C6 witness: the end-to-end scenario environment with a complete bundle, the
session failing, a stubbed API returning "X", and the CPython 3.12 message:
the call still fails with the wrapped format-specifier error. -/
theorem c6_fstring_witness :
    (generate_content_actual envScenario .unavailable tokNone "Invalid format specifier"
        (apiStub ["X"]) (initClient envScenario) "Strategy & Resource Mobilization" []).1 =
      .error (.exception ("Content generation failed: " ++ "Invalid format specifier")) :=
  (c6_generation_never_succeeds envScenario .unavailable tokNone "Invalid format specifier"
      (apiStub ["X"]) (initClient envScenario) "Strategy & Resource Mobilization" []).2.2
    (connOf (resolvedBundle envScenario .unavailable)) rfl
